import Mathlib

/-!
Shallow embedding of the StarConnect backend notification core
(src/services/notifications.js, src/services/redis.js, and the event
handlers of src/index.js), together with proofs checking the spec's
claims against it.

Modelling conventions:
- JavaScript numbers that carry notification ids are modelled as exact
  rationals (`Date.now()` is a natural number of milliseconds,
  `Math.random()` a rational in `[0,1)`); the only facts proved about
  ids are deterministic-equality facts, which do not depend on float
  rounding.
- The ambient calls `Date.now()` / `Math.random()` /
  `new Date().toISOString()` performed by one `addNotification` call are
  modelled as an explicit `IdSeed` input; event handlers that perform
  several such calls receive a seed oracle `Nat → IdSeed` indexed by a
  running tick counter.
- JavaScript `Map` objects are modelled as association lists whose
  operations mirror `Map.has` / `Map.get` / `Map.set` / `Map.delete`
  (set replaces in place, otherwise appends; delete removes the entry).
- Mutation of the stored arrays/objects is modelled by functional update;
  a thrown exception is an `Except.error` carrying the state as mutated
  up to the throw point.
-/

/-- A JavaScript value used as a notification id. JS strict equality
`===` between a number and a string is `false`, which the derived
`DecidableEq` reproduces (distinct constructors are unequal). -/
inductive JsVal where
  | num : ℚ → JsVal
  | str : String → JsVal
deriving DecidableEq, Repr

/-- The ambient effects consumed by one `addNotification` call in
notifications.js: `Date.now()` (milliseconds), `Math.random()`
(a rational in `[0,1)`), and `new Date().toISOString()`. -/
structure IdSeed where
  now : ℕ
  rand : ℚ
  iso : String
deriving DecidableEq, Repr

/-- The `data` object of a notification draft. The three constructors in
notifications.js populate different subsets of these fields; absent
fields are `none`. -/
structure NotifData where
  postId : Option ℚ := none
  authorId : Option ℚ := none
  authorName : Option String := none
  content : Option String := none
  likerId : Option ℚ := none
  likerName : Option String := none
  commentId : Option ℚ := none
  commenterId : Option ℚ := none
  commenterName : Option String := none
  commentText : Option String := none
deriving DecidableEq, Repr

/-- A notification draft: the object passed to `addNotification`.
`idProp`, `timestampProp` and `readProp` model `id` / `timestamp` /
`read` properties that a draft object could itself carry and that take
part in the spread `{ id: …, ...notification, timestamp: …, read: false }`
of notifications.js line 12–17; the drafts actually built by this
repository never set them. -/
structure NotifDraft where
  type : String
  title : String
  message : String
  data : NotifData := {}
  idProp : Option JsVal := none
  timestampProp : Option String := none
  readProp : Option Bool := none
deriving DecidableEq, Repr

/-- A stored notification record. -/
structure Notification where
  id : JsVal
  type : String
  title : String
  message : String
  data : NotifData
  timestamp : String
  read : Bool
deriving DecidableEq, Repr

/-- The record built by `addNotification` (notifications.js lines 12–17):
`{ id: Date.now() + Math.random(), ...notification, timestamp: new
Date().toISOString(), read: false }`. Spread semantics: a draft `id`
property, being spread after the generated `id` key, overrides it; the
`timestamp` and `read` keys are written after the spread and therefore
override any draft properties of those names. -/
def mkNotification (k : IdSeed) (d : NotifDraft) : Notification :=
  { id := d.idProp.getD (JsVal.num ((k.now : ℚ) + k.rand))
    type := d.type
    title := d.title
    message := d.message
    data := d.data
    timestamp := k.iso
    read := false }

abbrev UserId := ℕ

/-- The module-level `notifications` Map of notifications.js
(`userId -> notifications[]`), as an association list in insertion
order. -/
abbrev Store := List (UserId × List Notification)

/-- `notifications.has(userId)`. -/
def storeHas : Store → UserId → Bool
  | [], _ => false
  | (k, _) :: rest, u => k == u || storeHas rest u

/-- `notifications.get(userId)`, totalised with `[]` for an absent key
(the source only calls `get` after a `has` check or after inserting the
key). -/
def storeGet : Store → UserId → List Notification
  | [], _ => []
  | (k, v) :: rest, u => if k = u then v else storeGet rest u

/-- `notifications.set(userId, l)`: replace in place if the key is
present (JS Map preserves insertion order), otherwise append. -/
def storeSet : Store → UserId → List Notification → Store
  | [], u, l => [(u, l)]
  | (k, v) :: rest, u, l => if k = u then (u, l) :: rest else (k, v) :: storeSet rest u l

/-- `addNotification(userId, notification)` from notifications.js lines
6–28: ensure the key exists, build the record from the draft and the
ambient seed, `unshift` it, truncate with `splice(50)` to the 50 most
recent, write back, and return the created record. -/
def addNotification (s : Store) (userId : UserId) (draft : NotifDraft) (k : IdSeed) :
    Store × Notification :=
  let s0 := if storeHas s userId then s else storeSet s userId []
  let userNotifications := storeGet s0 userId
  let newNotification := mkNotification k draft
  let updated := (newNotification :: userNotifications).take 50
  (storeSet s0 userId updated, newNotification)

/-- `getNotifications(userId, limit = 20)` from notifications.js lines
31–38: `[]` for an unknown user, otherwise `slice(0, limit)`. -/
def getNotifications (s : Store) (userId : UserId) (limit : ℕ) : List Notification :=
  if storeHas s userId then (storeGet s userId).take limit else []

/-- `getUnreadCount(userId)` from notifications.js lines 41–48: 0 for an
unknown user, otherwise the number of entries with `read` false. -/
def getUnreadCount (s : Store) (userId : UserId) : ℕ :=
  if storeHas s userId then ((storeGet s userId).filter (fun n => !n.read)).length else 0

/-- The in-place effect of `userNotifications.find(n => n.id ===
notificationId)` followed by `notification.read = true`: set `read` on
the first entry whose id is strictly equal to the requested one, and
report whether a match was found. -/
def setReadFirst : List Notification → JsVal → List Notification × Bool
  | [], _ => ([], false)
  | n :: ns, nid =>
    if n.id = nid then ({ n with read := true } :: ns, true)
    else
      let p := setReadFirst ns nid
      (n :: p.1, p.2)

/-- `markAsRead(userId, notificationId)` from notifications.js lines
51–65: `false` without change for an unknown user; otherwise set `read`
on the first strictly-equal id and return whether one was found. -/
def markAsRead (s : Store) (userId : UserId) (notificationId : JsVal) : Store × Bool :=
  if storeHas s userId then
    let p := setReadFirst (storeGet s userId) notificationId
    (storeSet s userId p.1, p.2)
  else (s, false)

/-- `markAllAsRead(userId)` from notifications.js lines 68–79: `false`
for an unknown user, otherwise set `read` on every entry and return
`true`. -/
def markAllAsRead (s : Store) (userId : UserId) : Store × Bool :=
  if storeHas s userId then
    (storeSet s userId ((storeGet s userId).map (fun n => { n with read := true })), true)
  else (s, false)

/-- The `POST /api/notifications/:id/read` route of src/index.js lines
204–223: it passes `req.params.id` — a path parameter, hence a string —
directly to `markAsRead` for the authenticated user. -/
def markAsReadRoute (s : Store) (userId : UserId) (idParam : String) : Store × Bool :=
  markAsRead s userId (JsVal.str idParam)

/-- The module-level `userSockets` Map of notifications.js
(`userId -> socketId`). -/
abbrev Registry := List (UserId × String)

/-- `userSockets.get(userId)` (notifications.js `getUserSocket`). -/
def getUserSocket : Registry → UserId → Option String
  | [], _ => none
  | (k, v) :: rest, u => if k = u then some v else getUserSocket rest u

/-- `registerUserSocket(userId, socketId)`: `userSockets.set`, replacing
any existing handle for the user. -/
def registerUserSocket : Registry → UserId → String → Registry
  | [], u, sid => [(u, sid)]
  | (k, v) :: rest, u, sid =>
    if k = u then (u, sid) :: rest else (k, v) :: registerUserSocket rest u sid

/-- `unregisterUserSocket(userId)`: `userSockets.delete`, a no-op when
the key is absent. -/
def unregisterUserSocket : Registry → UserId → Registry
  | [], _ => []
  | (k, v) :: rest, u => if k = u then rest else (k, v) :: unregisterUserSocket rest u

/-- `sendNotificationToUser(userId, notification, io)` from
notifications.js lines 97–103: look up the handle and, when both the
handle and `io` are truthy (`if (socketId && io)` — the empty string is
falsy in JS), emit one `newNotification` push to that handle. The
returned list is the list of pushes performed. -/
def sendNotificationToUser (r : Registry) (userId : UserId) (n : Notification)
    (ioAvail : Bool) : List (String × Notification) :=
  match getUserSocket r userId with
  | some socketId => if !socketId.isEmpty && ioAvail then [(socketId, n)] else []
  | none => []

/-- A user record from src/data/users.js / the follow routes. `following`
is `Option` because the newPost handler guards with
`user.following && user.following.includes(author.id)` — a user object
may lack the property. -/
structure User where
  id : UserId
  name : String := ""
  followers : List UserId := []
  following : Option (List UserId) := none
deriving DecidableEq, Repr

/-- A `{ id, name, type }` user reference as carried in event payloads
(only the fields the handlers read are modelled). -/
structure UserRef where
  id : UserId
  name : String := ""
deriving DecidableEq, Repr

/-- A post object as carried in event payloads: `id`, `userId` (the
author), `content`. -/
structure PostObj where
  id : ℚ
  userId : UserId
  content : String := ""
deriving DecidableEq, Repr

/-- A comment object as carried in the newComment payload: `{ id, text }`. -/
structure CommentObj where
  id : ℚ
  text : String := ""
deriving DecidableEq, Repr

/-- Payload of a `newPost` event (src/routes/posts.js publishes
`{ post, author }`). -/
structure PostEvent where
  post : PostObj
  author : UserRef
deriving DecidableEq, Repr

/-- Payload of a `newLike` event: `{ post, liker, postAuthor }`. -/
structure LikeEvent where
  post : PostObj
  liker : UserRef
  postAuthor : UserRef
deriving DecidableEq, Repr

/-- Payload of a `newComment` event: `{ post, comment, commenter,
postAuthor }`. -/
structure CommentEvent where
  post : PostObj
  comment : CommentObj
  commenter : UserRef
  postAuthor : UserRef
deriving DecidableEq, Repr

/-- `createPostNotification(post, author)` from notifications.js lines
106–118, including the 100-character content preview with ellipsis. -/
def createPostNotification (post : PostObj) (author : UserRef) : NotifDraft :=
  { type := "newPost"
    title := "New Post"
    message := author.name ++ " just posted something new!"
    data :=
      { postId := some post.id
        authorId := some (post.userId : ℚ)
        authorName := some author.name
        content := some ((post.content.take 100) ++
          (if post.content.length > 100 then "..." else "")) } }

/-- `createLikeNotification(post, liker, postAuthor)` from
notifications.js lines 121–132. -/
def createLikeNotification (post : PostObj) (liker : UserRef) (postAuthor : UserRef) :
    NotifDraft :=
  { type := "newLike"
    title := "New Like"
    message := liker.name ++ " liked your post"
    data :=
      { postId := some post.id
        likerId := some (liker.id : ℚ)
        likerName := some liker.name } }

/-- A thrown JavaScript error. -/
inductive JsErr where
  | referenceError (name : String)
deriving DecidableEq, Repr

/-- `createCommentNotification` from notifications.js lines 135–148. Its
parameter list is `(post, commenter, postAuthor)`, but its body reads
`comment.id` and `comment.text`, and no `comment` is bound anywhere in
the module: evaluating the object literal throws
`ReferenceError: comment is not defined` before any draft is produced,
for every choice of arguments (hence the polymorphic parameters — the
call in src/index.js passes four dynamically-typed arguments, of which
the fourth is ignored by JS). -/
def createCommentNotification (post : α) (commenter : β) (postAuthor : γ) :
    Except JsErr NotifDraft :=
  Except.error (JsErr.referenceError "comment")

/-- State threaded through an event handler: the notification store, the
log of live pushes performed so far, and the tick counter indexing the
ambient seed oracle. -/
structure HState where
  store : Store
  pushes : List (String × Notification) := []
  tick : ℕ := 0
deriving DecidableEq, Repr

/-- `followers` as computed by the newPost handler (src/index.js lines
84–86): `users.filter(user => user.following &&
user.following.includes(author.id))`. No author exclusion is applied. -/
def followersOf (users : List User) (authorId : UserId) : List User :=
  users.filter (fun u =>
    match u.following with
    | some l => l.contains authorId
    | none => false)

/-- The body executed for one follower inside the newPost handler's
`forEach` (src/index.js lines 89–93): build the draft, store it for the
follower, and attempt a live push. -/
def deliverToFollower (reg : Registry) (ioAvail : Bool) (seeds : ℕ → IdSeed)
    (post : PostObj) (author : UserRef) (f : User) (h : HState) : HState :=
  let draft := createPostNotification post author
  let r := addNotification h.store f.id draft (seeds h.tick)
  { store := r.1
    pushes := h.pushes ++ sendNotificationToUser reg f.id r.2 ioAvail
    tick := h.tick + 1 }

/-- The `subscribeToChannel('newPost')` handler of src/index.js lines
78–99: filter the user list for followers of the author and run the
delivery body for each. (The surrounding try/catch is exercised in the
`forEachE`/`runHandler` combinators below; with a well-typed payload no
step of this handler throws.) -/
def handleNewPost (users : List User) (reg : Registry) (ioAvail : Bool)
    (seeds : ℕ → IdSeed) (ev : PostEvent) (h : HState) : HState :=
  (followersOf users ev.author.id).foldl
    (fun st f => deliverToFollower reg ioAvail seeds ev.post ev.author f st) h

/-- The `subscribeToChannel('newLike')` handler of src/index.js lines
101–116: return unchanged on a self-like, otherwise store one like
notification for the post author and attempt a live push. -/
def handleNewLike (reg : Registry) (ioAvail : Bool) (seeds : ℕ → IdSeed)
    (ev : LikeEvent) (h : HState) : HState :=
  if ev.liker.id = ev.postAuthor.id then h
  else
    let draft := createLikeNotification ev.post ev.liker ev.postAuthor
    let r := addNotification h.store ev.postAuthor.id draft (seeds h.tick)
    { store := r.1
      pushes := h.pushes ++ sendNotificationToUser reg ev.postAuthor.id r.2 ioAvail
      tick := h.tick + 1 }

/-- The `subscribeToChannel('newComment')` handler of src/index.js lines
118–133: return unchanged on a self-comment; otherwise call
`createCommentNotification(post, comment, commenter, postAuthor)` — which
throws (see `createCommentNotification`), so the handler's catch block
runs and the state is returned unchanged. The `Except.ok` branch is the
code that would run had the constructor returned a draft. -/
def handleNewComment (reg : Registry) (ioAvail : Bool) (seeds : ℕ → IdSeed)
    (ev : CommentEvent) (h : HState) : HState :=
  if ev.commenter.id = ev.postAuthor.id then h
  else
    match createCommentNotification ev.post ev.comment ev.commenter with
    | Except.error _ => h
    | Except.ok draft =>
      let r := addNotification h.store ev.postAuthor.id draft (seeds h.tick)
      { store := r.1
        pushes := h.pushes ++ sendNotificationToUser reg ev.postAuthor.id r.2 ioAvail
        tick := h.tick + 1 }

/-- `EventEmitter.emit` semantics over listeners that may throw: listeners
run in registration order; a listener that throws aborts the emit and the
exception propagates to the caller of `emit` (Node's EventEmitter). An
error carries the state as mutated up to the throw. -/
def emitE (ls : List (String → σ → Except σ σ)) (raw : String) (s : σ) : Except σ σ :=
  match ls with
  | [] => Except.ok s
  | l :: rest =>
    match l raw s with
    | Except.ok s1 => emitE rest raw s1
    | Except.error e => Except.error e

/-- The listener registered by `subscribeToChannel` (src/services/redis.js
lines 85–99): `try { parsed = JSON.parse(message); callback(parsed) }
catch (error) { log }`. Both the parse and the callback run inside the
try, so the registered listener never throws — on a parse failure or a
callback exception the catch logs and the listener returns. -/
def wrappedListener (parse : String → Option μ) (cb : μ → σ → Except σ σ) :
    String → σ → Except σ σ :=
  fun raw s =>
    Except.ok
      (match parse raw with
       | none => s
       | some m =>
         match cb m s with
         | Except.ok s1 => s1
         | Except.error e => e)

/-- `forEach` over a body that may throw (the per-recipient loop inside a
handler): the first throw aborts the remaining iterations and propagates. -/
def forEachE (f : α → σ → Except σ σ) : List α → σ → Except σ σ
  | [], s => Except.ok s
  | x :: xs, s =>
    match f x s with
    | Except.ok s1 => forEachE f xs s1
    | Except.error e => Except.error e

/-- A handler body of src/index.js: the whole recipient loop wrapped in a
single `try { … } catch (error) { log }` — an exception anywhere in the
loop is caught once, after which the handler returns. -/
def runHandler (f : α → σ → Except σ σ) (xs : List α) (s : σ) : σ :=
  match forEachE f xs s with
  | Except.ok s1 => s1
  | Except.error e => e

/-- A sequence of `addNotification` calls (each consuming the next seed
from the oracle), as performed by any interleaving of event handling. -/
def applyAdds (seeds : ℕ → IdSeed) : List (UserId × NotifDraft) → ℕ → Store → Store
  | [], _, s => s
  | (u, d) :: rest, i, s => applyAdds seeds rest (i + 1) (addNotification s u d (seeds i)).1

/-! ### Concrete inputs used to instantiate the theorems -/

/-- A fixed ambient seed: `Date.now() = 0`, `Math.random() = 0`. -/
def seed0 : IdSeed := { now := 0, rand := 0, iso := "1970-01-01T00:00:00.000Z" }

/-- A constant seed oracle (every millisecond/random draw identical). -/
def seeds0 : ℕ → IdSeed := fun _ => seed0

/-- A bare draft with no data payload. -/
def demoDraft : NotifDraft := { type := "newLike", title := "New Like", message := "m" }

/-- A draft that itself carries `read`, `timestamp` and `id` properties. -/
def demoDirtyDraft : NotifDraft :=
  { type := "newLike", title := "New Like", message := "m"
    idProp := some (JsVal.num 77), timestampProp := some "bogus", readProp := some true }

/-- An unread stored notification with a numeric id. -/
def demoUnread : Notification :=
  { id := JsVal.num 5, type := "newLike", title := "New Like", message := "m"
    data := {}, timestamp := "1970-01-01T00:00:00.000Z", read := false }

/-- A store in which user 1 already holds 50 unread notifications. -/
def demoStore50 : Store := [(1, List.replicate 50 demoUnread)]

/-- A store in which user 7 holds one unread notification with numeric id 5. -/
def demoStore1 : Store := [(7, [demoUnread])]

/-- A single user whose `following` list contains their own id — the
self-follow state the spec calls possible. -/
def selfFollowUsers : List User :=
  [{ id := 1, name := "A", followers := [], following := some [1] }]

/-- A `newPost` event published by user 1 (the self-follower above). -/
def selfFollowPostEvent : PostEvent :=
  { post := { id := 9, userId := 1, content := "hello" }, author := { id := 1, name := "A" } }

/-- A `newComment` event: user 2 leaves a 62-character comment on user
1's post (the spec's truncation scenario). -/
def longCommentEvent : CommentEvent :=
  { post := { id := 1, userId := 1, content := "p" }
    comment := { id := 1, text := "a very long comment exceeding fifty characters in total length" }
    commenter := { id := 2, name := "C" }
    postAuthor := { id := 1, name := "A" } }

/-- A `newLike` event: user 2 likes user 1's post. -/
def demoLikeEvent : LikeEvent :=
  { post := { id := 1, userId := 1, content := "p" }
    liker := { id := 2, name := "B" }
    postAuthor := { id := 1, name := "A" } }

/-- A per-recipient delivery action that fails on recipient 1 and
otherwise appends the recipient to the processed log — a concrete
instance of a delivery failure (spec §7(c)) inside a handler's loop. -/
def flakyDeliver (r : ℕ) (s : List ℕ) : Except (List ℕ) (List ℕ) :=
  if r = 1 then Except.error s else Except.ok (s ++ [r])

/-- A store in which user 1 holds one unread notification. -/
def demoStoreA : Store := [(1, [demoUnread])]

/-- The spec's fan-out scenario: author 1 is followed by users 2 and 3;
user 1 follows nobody. -/
def followerUsers : List User :=
  [{ id := 1, name := "A", followers := [2, 3], following := some [] },
   { id := 2, name := "B", followers := [], following := some [1] },
   { id := 3, name := "C", followers := [], following := some [1] }]

/-- A subscribed callback that throws. -/
def demoCbFail : String → List ℕ → Except (List ℕ) (List ℕ) := fun _ s => Except.error s

/-- A subscribed callback that appends 9 to the log. -/
def demoCbOk : String → List ℕ → Except (List ℕ) (List ℕ) := fun _ s => Except.ok (s ++ [9])

/-! ### Association-list (JS `Map`) lemmas -/

theorem storeGet_storeSet_self (s : Store) (u : UserId) (l : List Notification) :
    storeGet (storeSet s u l) u = l := by
  induction s with
  | nil => simp [storeSet, storeGet]
  | cons kv rest ih =>
    obtain ⟨k, v⟩ := kv
    by_cases h : k = u <;> simp [storeSet, storeGet, h, ih]

theorem storeGet_storeSet_other (s : Store) (u v : UserId) (l : List Notification)
    (hne : v ≠ u) : storeGet (storeSet s u l) v = storeGet s v := by
  have huv : u ≠ v := fun hh => hne hh.symm
  induction s with
  | nil => simp [storeSet, storeGet, huv]
  | cons kv rest ih =>
    obtain ⟨k, w⟩ := kv
    by_cases h : k = u
    · simp [storeSet, storeGet, h, huv]
    · simp [storeSet, storeGet, h, ih]

theorem storeHas_storeSet_self (s : Store) (u : UserId) (l : List Notification) :
    storeHas (storeSet s u l) u = true := by
  induction s with
  | nil => simp [storeSet, storeHas]
  | cons kv rest ih =>
    obtain ⟨k, v⟩ := kv
    by_cases h : k = u <;> simp [storeSet, storeHas, h, ih]

theorem storeGet_of_not_has (s : Store) (u : UserId) (h : storeHas s u = false) :
    storeGet s u = [] := by
  induction s with
  | nil => simp [storeGet]
  | cons kv rest ih =>
    obtain ⟨k, v⟩ := kv
    simp only [storeHas, Bool.or_eq_false_iff, beq_eq_false_iff_ne, ne_eq] at h
    simp [storeGet, h.1, ih h.2]

theorem storeSet_storeGet_self (s : Store) (u : UserId) (h : storeHas s u = true) :
    storeSet s u (storeGet s u) = s := by
  induction s with
  | nil => simp [storeHas] at h
  | cons kv rest ih =>
    obtain ⟨k, v⟩ := kv
    by_cases hk : k = u
    · subst hk
      simp [storeSet, storeGet]
    · simp only [storeHas, Bool.or_eq_true, beq_iff_eq] at h
      rcases h with h | h
    

      · exact absurd h hk
      · simp [storeSet, storeGet, hk, ih h]

theorem storeSet_storeSet_self (s : Store) (u : UserId) (l m : List Notification) :
    storeSet (storeSet s u l) u m = storeSet s u m := by
  induction s with
  | nil => simp [storeSet]
  | cons kv rest ih =>
    obtain ⟨k, v⟩ := kv
    by_cases h : k = u <;> simp [storeSet, h, ih]

/-! ### `addNotification` lemmas -/

theorem addNotification_snd (s : Store) (u : UserId) (d : NotifDraft) (k : IdSeed) :
    (addNotification s u d k).2 = mkNotification k d := rfl

theorem addNotification_get_self (s : Store) (u : UserId) (d : NotifDraft) (k : IdSeed) :
    storeGet (addNotification s u d k).1 u =
      mkNotification k d :: (storeGet s u).take 49 := by
  unfold addNotification
  by_cases h : storeHas s u = true
  · simp [h, storeGet_storeSet_self, List.take_succ_cons]
  · have h' : storeHas s u = false := by
      cases hb : storeHas s u
      · rfl
      · exact absurd hb h
    simp [h', storeGet_storeSet_self, storeGet_of_not_has s u h', List.take_succ_cons]

theorem addNotification_get_other (s : Store) (u v : UserId) (d : NotifDraft) (k : IdSeed)
    (hne : v ≠ u) : storeGet (addNotification s u d k).1 v = storeGet s v := by
  unfold addNotification
  by_cases h : storeHas s u = true
  · simp [h, storeGet_storeSet_other _ _ _ _ hne]
  · have h' : storeHas s u = false := by
      cases hb : storeHas s u
      · rfl
      · exact absurd hb h
    simp [h', storeGet_storeSet_other _ _ _ _ hne]

theorem mkNotification_read (k : IdSeed) (d : NotifDraft) :
    (mkNotification k d).read = false := rfl

theorem mkNotification_timestamp (k : IdSeed) (d : NotifDraft) :
    (mkNotification k d).timestamp = k.iso := rfl

theorem mkNotification_id (k : IdSeed) (d : NotifDraft) (h : d.idProp = none) :
    (mkNotification k d).id = JsVal.num ((k.now : ℚ) + k.rand) := by
  simp [mkNotification, h]

/-! ### `setReadFirst` / `markAsRead` lemmas -/

theorem setReadFirst_snd (l : List Notification) (nid : JsVal) :
    (setReadFirst l nid).2 = l.any (fun n => n.id == nid) := by
  induction l with
  | nil => simp [setReadFirst]
  | cons n ns ih =>
    by_cases h : n.id = nid <;> simp [setReadFirst, h, ih]

theorem setReadFirst_not_found (l : List Notification) (nid : JsVal)
    (h : (setReadFirst l nid).2 = false) : (setReadFirst l nid).1 = l := by
  induction l with
  | nil => simp [setReadFirst]
  | cons n ns ih =>
    by_cases hn : n.id = nid
    · simp [setReadFirst, hn] at h
    · simp only [setReadFirst, hn, if_false] at h ⊢
      simp [ih h]

theorem setReadFirst_idem (l : List Notification) (nid : JsVal) :
    setReadFirst (setReadFirst l nid).1 nid = setReadFirst l nid := by
  induction l with
  | nil => simp [setReadFirst]
  | cons n ns ih =>
    by_cases hn : n.id = nid
    · simp [setReadFirst, hn]
    · simp [setReadFirst, hn, ih]

theorem setReadFirst_found (l : List Notification) (nid : JsVal)
    (h : (setReadFirst l nid).2 = true) :
    ∃ j n, l.get? j = some n ∧ n.id = nid ∧
      (setReadFirst l nid).1 = l.set j { n with read := true } := by
  induction l with
  | nil => simp [setReadFirst] at h
  | cons m ns ih =>
    by_cases hm : m.id = nid
    · exact ⟨0, m, by simp, hm, by simp [setReadFirst, hm]⟩
    · simp only [setReadFirst, hm, if_false] at h
      obtain ⟨j, n, hj, hn, hset⟩ := ih h
      exact ⟨j + 1, n, by simpa using hj, hn, by simp [setReadFirst, hm, hset]⟩

theorem markAsRead_snd (s : Store) (u : UserId) (nid : JsVal) :
    (markAsRead s u nid).2 = (storeGet s u).any (fun n => n.id == nid) := by
  unfold markAsRead
  cases hb : storeHas s u
  · simp [storeGet_of_not_has s u hb]
  · simp [setReadFirst_snd]

theorem markAsRead_no_change (s : Store) (u : UserId) (nid : JsVal)
    (h : (markAsRead s u nid).2 = false) : (markAsRead s u nid).1 = s := by
  unfold markAsRead at h ⊢
  cases hb : storeHas s u
  · simp
  · simp only [hb, if_true] at h ⊢
    rw [setReadFirst_not_found _ _ h]
    exact storeSet_storeGet_self s u hb

theorem markAsRead_idem (s : Store) (u : UserId) (nid : JsVal) :
    markAsRead (markAsRead s u nid).1 u nid = markAsRead s u nid := by
  unfold markAsRead
  cases hb : storeHas s u
  · simp [hb]
  · simp only [hb, if_true]
    have h1 : storeHas (storeSet s u (setReadFirst (storeGet s u) nid).1) u = true :=
      storeHas_storeSet_self s u _
    simp [h1, storeGet_storeSet_self, setReadFirst_idem, storeSet_storeSet_self]

theorem getUnreadCount_eq (s : Store) (u : UserId) :
    getUnreadCount s u = ((storeGet s u).filter (fun n => !n.read)).length := by
  unfold getUnreadCount
  cases hb : storeHas s u
  · simp [storeGet_of_not_has s u hb]
  · simp

/-! ### Registry lemmas -/

theorem getUserSocket_register_self (r : Registry) (u : UserId) (sid : String) :
    getUserSocket (registerUserSocket r u sid) u = some sid := by
  induction r with
  | nil => simp [registerUserSocket, getUserSocket]
  | cons kv rest ih =>
    obtain ⟨k, v⟩ := kv
    by_cases h : k = u <;> simp [registerUserSocket, getUserSocket, h, ih]

theorem unregister_of_not_registered (r : Registry) (u : UserId)
    (h : getUserSocket r u = none) : unregisterUserSocket r u = r := by
  induction r with
  | nil => rfl
  | cons kv rest ih =>
    obtain ⟨k, v⟩ := kv
    by_cases hk : k = u
    · simp [getUserSocket, hk] at h
    · simp only [getUserSocket, hk, if_false] at h
      simp [unregisterUserSocket, hk, ih h]

/-! ### Fan-out lemmas for the newPost handler -/

theorem deliverToFollower_store (reg : Registry) (ioAvail : Bool) (seeds : ℕ → IdSeed)
    (post : PostObj) (author : UserRef) (f : User) (h : HState) :
    (deliverToFollower reg ioAvail seeds post author f h).store =
      (addNotification h.store f.id (createPostNotification post author) (seeds h.tick)).1 := rfl

theorem deliverToFollower_tick (reg : Registry) (ioAvail : Bool) (seeds : ℕ → IdSeed)
    (post : PostObj) (author : UserRef) (f : User) (h : HState) :
    (deliverToFollower reg ioAvail seeds post author f h).tick = h.tick + 1 := rfl

theorem foldl_deliver_get_other (reg : Registry) (ioAvail : Bool) (seeds : ℕ → IdSeed)
    (post : PostObj) (author : UserRef) (L : List User) (h : HState) (v : UserId)
    (hv : v ∉ L.map User.id) :
    storeGet ((L.foldl (fun st f => deliverToFollower reg ioAvail seeds post author f st) h).store) v
      = storeGet h.store v := by
  induction L generalizing h with
  | nil => rfl
  | cons g gs ih =>
    have hv' : v ≠ g.id ∧ v ∉ gs.map User.id := by
      simpa [List.mem_cons, not_or] using hv
    rw [List.foldl_cons, ih _ hv'.2, deliverToFollower_store,
      addNotification_get_other _ _ _ _ _ hv'.1]

theorem foldl_deliver_get_mem (reg : Registry) (ioAvail : Bool) (seeds : ℕ → IdSeed)
    (post : PostObj) (author : UserRef) (L : List User) (h : HState) (j : ℕ) (f : User)
    (hnd : (L.map User.id).Nodup) (hj : L.get? j = some f) :
    storeGet ((L.foldl (fun st g => deliverToFollower reg ioAvail seeds post author g st) h).store) f.id
      = mkNotification (seeds (h.tick + j)) (createPostNotification post author)
          :: (storeGet h.store f.id).take 49 := by
  induction L generalizing h j with
  | nil => simp at hj
  | cons g gs ih =>
    rw [List.map_cons] at hnd
    have hnd' := List.nodup_cons.mp hnd
    cases j with
    | zero =>
      have hgf : g = f := by simpa using hj
      subst hgf
      rw [List.foldl_cons,
        foldl_deliver_get_other reg ioAvail seeds post author gs _ g.id hnd'.1,
        deliverToFollower_store, addNotification_get_self, Nat.add_zero]
    | succ j =>
      have hj' : gs.get? j = some f := by simpa using hj
      have hfmem : f.id ∈ gs.map User.id :=
        List.mem_map_of_mem User.id (List.get?_mem hj')
      have hne : f.id ≠ g.id := fun he => hnd'.1 (he ▸ hfmem)
      rw [List.foldl_cons, ih _ j hnd'.2 hj', deliverToFollower_store,
        addNotification_get_other _ _ _ _ _ hne, deliverToFollower_tick]
      have : h.tick + 1 + j = h.tick + (j + 1) := by omega
      rw [this]

/-! ### Pub/sub (redis.js) lemmas -/

theorem emitE_wrapped (parse : String → Option μ) (cbs : List (μ → σ → Except σ σ))
    (raw : String) (s : σ) :
    emitE (cbs.map (wrappedListener parse)) raw s =
      Except.ok (cbs.foldl
        (fun st cb =>
          match parse raw with
          | none => st
          | some m =>
            match cb m st with
            | Except.ok s1 => s1
            | Except.error e => e) s) := by
  induction cbs generalizing s with
  | nil => rfl
  | cons c cs ih => simp [emitE, wrappedListener, ih]

theorem forEachE_error_head (f : α → σ → Except σ σ) (x : α) (xs : List α) (s e : σ)
    (hx : f x s = Except.error e) : forEachE f (x :: xs) s = Except.error e := by
  simp [forEachE, hx]

theorem runHandler_error_head (f : α → σ → Except σ σ) (x : α) (xs : List α) (s e : σ)
    (hx : f x s = Except.error e) : runHandler f (x :: xs) s = e := by
  simp [runHandler, forEachE_error_head f x xs s e hx]

/-! ### Capacity invariant -/

theorem addNotification_length_le (s : Store) (u : UserId) (d : NotifDraft) (k : IdSeed) :
    (storeGet (addNotification s u d k).1 u).length ≤ 50 := by
  rw [addNotification_get_self]
  have := List.length_take_le 49 (storeGet s u)
  simp only [List.length_cons]
  omega

theorem applyAdds_length_le (seeds : ℕ → IdSeed) (calls : List (UserId × NotifDraft))
    (i : ℕ) (s : Store) (hs : ∀ u, (storeGet s u).length ≤ 50) :
    ∀ u, (storeGet (applyAdds seeds calls i s) u).length ≤ 50 := by
  induction calls generalizing i s with
  | nil => exact hs
  | cons c rest ih =>
    obtain ⟨w, d⟩ := c
    refine ih (i + 1) _ (fun u => ?_)
    by_cases hu : u = w
    · subst hu
      exact addNotification_length_le s u d (seeds i)
    · rw [addNotification_get_other _ _ _ _ _ hu]
      exact hs u

/-! ### Claim theorems -/

/-- Claim C1. The code does not do what the claim states: for every
`newComment` event — self-comment or not — handling the event creates no
notification at all, because `createCommentNotification` reads the
unbound identifier `comment` and throws, and the handler's catch block
swallows the error. In particular this holds at the spec's truncation
scenario `longCommentEvent`. -/
theorem newComment_creates_no_notification :
    (∀ (reg : Registry) (ioAvail : Bool) (seeds : ℕ → IdSeed) (ev : CommentEvent) (h : HState),
        handleNewComment reg ioAvail seeds ev h = h) ∧
    handleNewComment [] true seeds0 longCommentEvent { store := [] } = { store := [] } := by
  constructor
  · intro reg ioAvail seeds ev h
    simp [handleNewComment, createCommentNotification]
  · simp [handleNewComment, createCommentNotification]

/-- Claim C4. The id generator is `Date.now() + Math.random()`: two
`addNotification` calls falling in the same millisecond with the same
random draw (the constant oracle `seeds0`) create two stored records with
equal ids — ids are not pairwise distinct per store instance. -/
theorem addNotification_id_collision :
    (storeGet (applyAdds seeds0 [(7, demoDraft), (7, demoDraft)] 0 []) 7).length = 2 ∧
    ((storeGet (applyAdds seeds0 [(7, demoDraft), (7, demoDraft)] 0 []) 7).get? 0).map
        Notification.id
      = ((storeGet (applyAdds seeds0 [(7, demoDraft), (7, demoDraft)] 0 []) 7).get? 1).map
        Notification.id := by
  exact ⟨rfl, rfl⟩

/-- Claim C7: for a user with no stored notifications, `getNotifications`
returns the empty sequence, `getUnreadCount` returns 0, and
`markAllAsRead` returns false, all without changing the store. -/
theorem unknown_user_benign (s : Store) (u : UserId) (limit : ℕ)
    (h : storeHas s u = false) :
    getNotifications s u limit = [] ∧ getUnreadCount s u = 0 ∧
      markAllAsRead s u = (s, false) := by
  refine ⟨?_, ?_, ?_⟩ <;> simp [getNotifications, getUnreadCount, markAllAsRead, h]

/-- Witness for C7 at user 99, absent from `demoStore1`. -/
theorem unknown_user_benign_witness :
    storeHas demoStore1 99 = false ∧
      (getNotifications demoStore1 99 20 = [] ∧ getUnreadCount demoStore1 99 = 0 ∧
        markAllAsRead demoStore1 99 = (demoStore1, false)) :=
  ⟨by decide, unknown_user_benign demoStore1 99 20 (by decide)⟩

/-- Claim C8: `markAsRead` returns true exactly when an entry with the
requested id exists for the user, sets `read` on the (first) matching
entry, changes nothing when it returns false, and is idempotent. -/
theorem markAsRead_spec (s : Store) (u : UserId) (nid : JsVal) :
    ((markAsRead s u nid).2 = true ↔ ∃ n ∈ storeGet s u, n.id = nid) ∧
    ((markAsRead s u nid).2 = false → (markAsRead s u nid).1 = s) ∧
    ((markAsRead s u nid).2 = true →
      ∃ j n, (storeGet s u).get? j = some n ∧ n.id = nid ∧
        storeGet (markAsRead s u nid).1 u = (storeGet s u).set j { n with read := true }) ∧
    markAsRead (markAsRead s u nid).1 u nid = markAsRead s u nid := by
  refine ⟨?_, markAsRead_no_change s u nid, ?_, markAsRead_idem s u nid⟩
  · rw [markAsRead_snd]
    simp [List.any_eq_true]
  · intro h2
    cases hb : storeHas s u
    · rw [markAsRead_snd, storeGet_of_not_has s u hb] at h2
      simp at h2
    · have hp : (setReadFirst (storeGet s u) nid).2 = true := by
        unfold markAsRead at h2
        simpa [hb] using h2
      obtain ⟨j, n, hj, hn, hset⟩ := setReadFirst_found _ _ hp
      refine ⟨j, n, hj, hn, ?_⟩
      unfold markAsRead
      simp [hb, storeGet_storeSet_self, hset]

/-- Witness for C8 at a store holding one notification with id 5 for
user 7. -/
theorem markAsRead_spec_witness :
    (markAsRead demoStore1 7 (JsVal.num 5)).2 = true ∧
    markAsRead (markAsRead demoStore1 7 (JsVal.num 5)).1 7 (JsVal.num 5)
      = markAsRead demoStore1 7 (JsVal.num 5) := by
  have h := markAsRead_spec demoStore1 7 (JsVal.num 5)
  refine ⟨h.1.mpr ⟨demoUnread, ?_, rfl⟩, h.2.2.2⟩
  show demoUnread ∈ [demoUnread]
  exact List.mem_singleton_self _

/-- Claim C10: stored ids are numbers, and `markAsRead` compares ids with
strict (type-sensitive) equality, so the HTTP mark-read route — which
passes its path parameter as a string — returns false and leaves the
store unchanged whenever every stored id of that user is numeric. -/
theorem markAsRead_string_id_fails (s : Store) (u : UserId) (x : String)
    (h : ∀ n ∈ storeGet s u, ∃ q, n.id = JsVal.num q) :
    markAsReadRoute s u x = (s, false) := by
  have hsnd : (markAsRead s u (JsVal.str x)).2 = false := by
    rw [markAsRead_snd]
    simp only [List.any_eq_false]
    intro n hn
    obtain ⟨q, hq⟩ := h n hn
    simp [hq]
  have hfst := markAsRead_no_change s u (JsVal.str x) hsnd
  have hpair : markAsRead s u (JsVal.str x)
      = ((markAsRead s u (JsVal.str x)).1, (markAsRead s u (JsVal.str x)).2) := rfl
  unfold markAsReadRoute
  rw [hpair, hfst, hsnd]

/-- Witness for C10: user 7 holds one notification with numeric id 5;
marking `"5"` (the route's string form) fails and changes nothing. -/
theorem markAsRead_string_id_fails_witness :
    (∀ n ∈ storeGet demoStore1 7, ∃ q, n.id = JsVal.num q) ∧
    markAsReadRoute demoStore1 7 "5" = (demoStore1, false) := by
  have hall : ∀ n ∈ storeGet demoStore1 7, ∃ q, n.id = JsVal.num q := by
    intro n hn
    have hn' : n ∈ [demoUnread] := hn
    rw [List.mem_singleton] at hn'
    exact ⟨5, by rw [hn']; rfl⟩
  exact ⟨hall, markAsRead_string_id_fails demoStore1 7 "5" hall⟩

/-- Claim C9: registering a second handle replaces the first, so delivery
targets the new handle only and never the old one; unregistering an
unregistered user is a no-op; delivery with no registered handle performs
no push. -/
theorem registry_single_handle (r : Registry) (u : UserId) (h1 h2 : String)
    (n : Notification) (ioAvail : Bool) (hne : h1 ≠ h2) :
    getUserSocket (registerUserSocket (registerUserSocket r u h1) u h2) u = some h2 ∧
    (∀ p ∈ sendNotificationToUser (registerUserSocket (registerUserSocket r u h1) u h2)
        u n ioAvail, p.1 = h2) ∧
    (h1, n) ∉ sendNotificationToUser (registerUserSocket (registerUserSocket r u h1) u h2)
        u n ioAvail ∧
    (getUserSocket r u = none → unregisterUserSocket r u = r) ∧
    (getUserSocket r u = none → sendNotificationToUser r u n ioAvail = []) := by
  have hg : getUserSocket (registerUserSocket (registerUserSocket r u h1) u h2) u
      = some h2 := getUserSocket_register_self _ u h2
  have hsend : sendNotificationToUser (registerUserSocket (registerUserSocket r u h1) u h2)
      u n ioAvail = if !h2.isEmpty && ioAvail then [(h2, n)] else [] := by
    unfold sendNotificationToUser
    rw [hg]
  refine ⟨hg, ?_, ?_, unregister_of_not_registered r u, ?_⟩
  · intro p hp
    rw [hsend] at hp
    split at hp
    · rw [List.mem_singleton] at hp
      rw [hp]
    · simp at hp
  · intro hmem
    rw [hsend] at hmem
    split at hmem
    · rw [List.mem_singleton] at hmem
      exact hne (congrArg Prod.fst hmem)
    · simp at hmem
  · intro hnone
    unfold sendNotificationToUser
    rw [hnone]

/-- Witness for C9: fresh registry, handles "s1" then "s2" for user 3. -/
theorem registry_single_handle_witness :
    ("s1" : String) ≠ "s2" ∧
    getUserSocket (registerUserSocket (registerUserSocket [] 3 "s1") 3 "s2") 3 = some "s2" ∧
    (getUserSocket ([] : Registry) 3 = none → unregisterUserSocket ([] : Registry) 3 = []) := by
  have h := registry_single_handle [] 3 "s1" "s2" demoUnread true (by decide)
  exact ⟨by decide, h.1, h.2.2.2.1⟩

/-- Claim C6: `addNotification` prepends a freshly constructed record —
`read` false and a fresh timestamp even if the draft carries `read` or
`timestamp` properties, and the generated id when the draft carries no
`id` property — truncates to the 50 most recent, returns the record;
consecutive inserts appear newest-first, eviction drops exactly the
oldest entries, and after any number of calls from the empty store every
list has length at most 50. -/
theorem addNotification_spec (s : Store) (u : UserId) (draft : NotifDraft) (k : IdSeed) :
    (addNotification s u draft k).2 = mkNotification k draft ∧
    (addNotification s u draft k).2.read = false ∧
    (addNotification s u draft k).2.timestamp = k.iso ∧
    (draft.idProp = none →
      (addNotification s u draft k).2.id = JsVal.num ((k.now : ℚ) + k.rand)) ∧
    storeGet (addNotification s u draft k).1 u
      = (addNotification s u draft k).2 :: (storeGet s u).take 49 ∧
    (∀ v, v ≠ u → storeGet (addNotification s u draft k).1 v = storeGet s v) ∧
    (∀ d2 k2,
      (storeGet (addNotification (addNotification s u draft k).1 u d2 k2).1 u).get? 0
        = some (mkNotification k2 d2) ∧
      (storeGet (addNotification (addNotification s u draft k).1 u d2 k2).1 u).get? 1
        = some (mkNotification k draft)) ∧
    (∀ (seeds : ℕ → IdSeed) (calls : List (UserId × NotifDraft)) (i : ℕ) (w : UserId),
      (storeGet (applyAdds seeds calls i []) w).length ≤ 50) := by
  refine ⟨rfl, rfl, rfl, mkNotification_id k draft, addNotification_get_self s u draft k,
    fun v hv => addNotification_get_other s u v draft k hv, ?_, ?_⟩
  · intro d2 k2
    constructor
    · rw [addNotification_get_self]
      rfl
    · rw [addNotification_get_self, addNotification_get_self, List.take_succ_cons]
      rfl
  · intro seeds calls i w
    exact applyAdds_length_le seeds calls i [] (fun v => by simp [storeGet]) w

/-- Witness for C6: a draft carrying bogus `read`/`timestamp` properties
still yields `read = false` and the fresh timestamp; a clean draft gets
the generated id. -/
theorem addNotification_spec_witness :
    (addNotification demoStore1 7 demoDirtyDraft seed0).2.read = false ∧
    (addNotification demoStore1 7 demoDirtyDraft seed0).2.timestamp = seed0.iso ∧
    demoDraft.idProp = none ∧
    (addNotification demoStore1 7 demoDraft seed0).2.id
      = JsVal.num ((seed0.now : ℚ) + seed0.rand) := by
  have h1 := addNotification_spec demoStore1 7 demoDirtyDraft seed0
  have h2 := addNotification_spec demoStore1 7 demoDraft seed0
  exact ⟨h1.2.1, h1.2.2.1, rfl, h2.2.2.2.1 rfl⟩

/-- Claim C5, amended: a self-like creates no notification; otherwise
exactly one like notification is prepended for the post author and every
other user's list is unchanged, and the author's unread count increases
by exactly 1 provided the author held at most 49 stored notifications
(at 50, eviction of an unread oldest entry offsets the increase). -/
theorem newLike_spec (reg : Registry) (ioAvail : Bool) (seeds : ℕ → IdSeed)
    (ev : LikeEvent) (h : HState) :
    (ev.liker.id = ev.postAuthor.id → handleNewLike reg ioAvail seeds ev h = h) ∧
    (ev.liker.id ≠ ev.postAuthor.id →
      storeGet (handleNewLike reg ioAvail seeds ev h).store ev.postAuthor.id
        = mkNotification (seeds h.tick) (createLikeNotification ev.post ev.liker ev.postAuthor)
            :: (storeGet h.store ev.postAuthor.id).take 49 ∧
      (∀ v, v ≠ ev.postAuthor.id →
        storeGet (handleNewLike reg ioAvail seeds ev h).store v = storeGet h.store v) ∧
      ((storeGet h.store ev.postAuthor.id).length ≤ 49 →
        getUnreadCount (handleNewLike reg ioAvail seeds ev h).store ev.postAuthor.id
          = getUnreadCount h.store ev.postAuthor.id + 1)) := by
  constructor
  · intro he
    simp [handleNewLike, he]
  · intro hne
    have hstore : (handleNewLike reg ioAvail seeds ev h).store
        = (addNotification h.store ev.postAuthor.id
            (createLikeNotification ev.post ev.liker ev.postAuthor) (seeds h.tick)).1 := by
      simp [handleNewLike, hne]
    refine ⟨?_, ?_, ?_⟩
    · rw [hstore, addNotification_get_self]
    · intro v hv
      rw [hstore, addNotification_get_other _ _ _ _ _ hv]
    · intro hlen
      rw [hstore, getUnreadCount_eq, getUnreadCount_eq, addNotification_get_self,
        List.take_of_length_le hlen]
      simp [List.filter_cons, mkNotification_read]

/-- Witness for C5: user 2 likes user 1's post while user 1 holds one
notification; user 1's unread count rises by exactly 1. -/
theorem newLike_spec_witness :
    demoLikeEvent.liker.id ≠ demoLikeEvent.postAuthor.id ∧
    (storeGet demoStoreA demoLikeEvent.postAuthor.id).length ≤ 49 ∧
    getUnreadCount (handleNewLike [] true seeds0 demoLikeEvent { store := demoStoreA }).store
        demoLikeEvent.postAuthor.id
      = getUnreadCount demoStoreA demoLikeEvent.postAuthor.id + 1 := by
  have h := (newLike_spec [] true seeds0 demoLikeEvent { store := demoStoreA }).2 (by decide)
  exact ⟨by decide, by decide, h.2.2 (by decide)⟩

/-- Counterexample to C5 as stated: when the post author already holds 50
unread notifications, a like by another user leaves the unread count at
50 — it does not increase by exactly 1. -/
theorem newLike_unread_counterexample :
    demoLikeEvent.liker.id ≠ demoLikeEvent.postAuthor.id ∧
    getUnreadCount demoStore50 1 = 50 ∧
    getUnreadCount (handleNewLike [] true seeds0 demoLikeEvent { store := demoStore50 }).store 1
      = 50 := by
  refine ⟨by decide, rfl, rfl⟩

/-- Claim C2, amended: a `newPost` event by author A creates exactly one
notification — referencing the post id and the post's author id — for
each user whose `following` list contains A's id (assuming the follower
ids are pairwise distinct), prepended newest-first, and leaves every
other user's list unchanged; the handler applies no author exclusion, so
this covers A as well whenever A's own `following` list contains A. -/
theorem newPost_fanout (users : List User) (reg : Registry) (ioAvail : Bool)
    (seeds : ℕ → IdSeed) (ev : PostEvent) (h : HState)
    (hnd : ((followersOf users ev.author.id).map User.id).Nodup) :
    (∀ v : UserId, v ∉ (followersOf users ev.author.id).map User.id →
      storeGet (handleNewPost users reg ioAvail seeds ev h).store v = storeGet h.store v) ∧
    (∀ j f, (followersOf users ev.author.id).get? j = some f →
      storeGet (handleNewPost users reg ioAvail seeds ev h).store f.id
        = mkNotification (seeds (h.tick + j)) (createPostNotification ev.post ev.author)
            :: (storeGet h.store f.id).take 49) ∧
    (∀ k : IdSeed,
      (mkNotification k (createPostNotification ev.post ev.author)).data.postId
        = some ev.post.id ∧
      (mkNotification k (createPostNotification ev.post ev.author)).data.authorId
        = some (ev.post.userId : ℚ)) := by
  unfold handleNewPost
  refine ⟨?_, ?_, fun k => ⟨rfl, rfl⟩⟩
  · intro v hv
    exact foldl_deliver_get_other reg ioAvail seeds ev.post ev.author _ h v hv
  · intro j f hj
    exact foldl_deliver_get_mem reg ioAvail seeds ev.post ev.author _ h j f hnd hj

/-- Witness for C2 at the spec's scenario (author 1 followed by users 2
and 3): follower 2 gets exactly the new notification; non-follower 5 is
untouched. -/
theorem newPost_fanout_witness :
    ((followersOf followerUsers 1).map User.id).Nodup ∧
    storeGet (handleNewPost followerUsers [] true seeds0 selfFollowPostEvent
        { store := [], pushes := [], tick := 0 }).store 2
      = mkNotification (seeds0 (0 + 0))
          (createPostNotification selfFollowPostEvent.post selfFollowPostEvent.author)
        :: (storeGet ([] : Store) 2).take 49 ∧
    storeGet (handleNewPost followerUsers [] true seeds0 selfFollowPostEvent
        { store := [], pushes := [], tick := 0 }).store 5
      = storeGet ([] : Store) 5 := by
  have hnd : ((followersOf followerUsers 1).map User.id).Nodup := by decide
  have h := newPost_fanout followerUsers [] true seeds0 selfFollowPostEvent
    { store := [], pushes := [], tick := 0 } hnd
  refine ⟨hnd, ?_, h.1 5 (by decide)⟩
  exact h.2.1 0 { id := 2, name := "B", followers := [], following := some [1] } rfl

/-- Counterexample to C2 as stated ("A receives none even if
self-following is possible"): with a users list in which author 1
follows themself, handling author 1's own `newPost` event stores one
notification for author 1. -/
theorem newPost_self_follow_counterexample :
    (storeGet (handleNewPost selfFollowUsers [] true seeds0 selfFollowPostEvent
        { store := [] }).store 1).length = 1 := by
  rfl

/-- Claim C3, amended: a publish over listeners registered through
`subscribeToChannel` returns normally (`Except.ok`) — each callback runs
exactly once, on the state left by its predecessors, with its exceptions
caught by the wrapper — but inside one handler a delivery failure for one
recipient aborts the loop over the remaining recipients: the handler
returns the caught error state no matter what recipients follow. -/
theorem publish_isolated_recipient_loop_aborts {μ σ τ α : Type}
    (parse : String → Option μ) (cbs : List (μ → σ → Except σ σ)) (raw : String) (s : σ)
    (f : α → τ → Except τ τ) (x : α) (ys : List α) (st e : τ)
    (hx : f x st = Except.error e) :
    emitE (cbs.map (wrappedListener parse)) raw s
      = Except.ok (cbs.foldl
          (fun st1 cb =>
            match parse raw with
            | none => st1
            | some m =>
              match cb m st1 with
              | Except.ok s1 => s1
              | Except.error e1 => e1) s) ∧
    runHandler f (x :: ys) st = e :=
  ⟨emitE_wrapped parse cbs raw s, runHandler_error_head f x ys st e hx⟩

/-- Witness for C3: a throwing callback followed by a succeeding one —
the publish still returns ok and the second callback ran; a delivery
failure on recipient 1 ends the handler with the log as of the throw. -/
theorem publish_isolated_witness :
    flakyDeliver 1 [] = Except.error [] ∧
    emitE ([demoCbFail, demoCbOk].map (wrappedListener (fun r : String => some r))) "m"
        ([] : List ℕ) = Except.ok [9] ∧
    runHandler flakyDeliver [1, 2] ([] : List ℕ) = [] := by
  have h := publish_isolated_recipient_loop_aborts (fun r : String => some r)
    [demoCbFail, demoCbOk] "m" ([] : List ℕ) flakyDeliver 1 [2] [] [] rfl
  refine ⟨rfl, ?_, h.2⟩
  rw [h.1]
  rfl

/-- Counterexample to C3 as stated: delivery to recipient 2 succeeds when
run alone, yet after recipient 1's failure the handler ends with 2 never
processed — a failure does prevent the remaining recipients of that
handler from being processed. -/
theorem recipient_loop_abort_counterexample :
    runHandler flakyDeliver [1, 2] [] = [] ∧ runHandler flakyDeliver [2] [] = [2] :=
  ⟨rfl, rfl⟩
